import Mathlib

/-!
Verification of pyqso/calendar.py: a shallow embedding of the `Calendar`
class (a dialog wrapping a Gtk.Calendar widget) and its `date` accessor,
which formats the widget's selection as a YYYYMMDD string.
-/

namespace PyQSO

/-- Reversed list of decimal digits of `n`, computed with explicit fuel
(the recursion divides by 10 each step; `fuel ≥ n` is always enough).
`digitsRev fuel 0 = []` for every fuel. -/
def digitsRev : Nat → Nat → List Nat
  | 0, _ => []
  | fuel + 1, n => if n = 0 then [] else n % 10 :: digitsRev fuel (n / 10)

/-- Model of Python's `str` applied to a non-negative integer: its decimal
representation with no sign, no padding, and `"0"` for zero. -/
def pyStr (n : Nat) : String :=
  if n = 0 then "0" else ((digitsRev n n).reverse.map Nat.digitChar).asString

/-- A Python value flowing through `Calendar.date`: the local variables
`year`, `month`, `day`, `date` each hold an int or a str at runtime. -/
inductive PyVal where
  | int : Nat → PyVal
  | str : String → PyVal
deriving DecidableEq

/-- Python's `+` operator as used in `Calendar.date`: int addition or
string concatenation; a mixed-type operand pair raises `TypeError`,
modelled as an `Except.error`. -/
def pyAdd : PyVal → PyVal → Except String PyVal
  | PyVal.int a, PyVal.int b => Except.ok (PyVal.int (a + b))
  | PyVal.str a, PyVal.str b => Except.ok (PyVal.str (a ++ b))
  | _, _ => Except.error "TypeError: unsupported operand types"

/-- Python's `str()` builtin on a dynamic value: identity on strings,
decimal rendering on ints. -/
def pyStrV : PyVal → PyVal
  | PyVal.int n => PyVal.str (pyStr n)
  | PyVal.str s => PyVal.str s

/-- State of the Gtk.Calendar widget: the current selection, with the
month 0-indexed (January = 0) exactly as `Gtk.Calendar.get_date` reports. -/
structure GtkCalendar where
  year : Nat
  month0 : Nat
  day : Nat
deriving DecidableEq

/-- A named object produced by the Gtk.Builder: either the dialog
(`"calendar_dialog"`) or the calendar widget (`"calendar"`). Python is
dynamically typed, so the lookup result is a sum. -/
inductive GtkObject where
  | dialog : Bool → GtkObject
  | calendarWidget : GtkCalendar → GtkObject
deriving DecidableEq

/-- `show_all()` on a Gtk object: makes a dialog visible; a bare calendar
widget has no further children to show in this model. -/
def GtkObject.show_all : GtkObject → GtkObject
  | GtkObject.dialog _ => GtkObject.dialog true
  | GtkObject.calendarWidget w => GtkObject.calendarWidget w

/-- `get_date()` attribute access on a builder object: succeeds on the
calendar widget, returning the selection triple and leaving the widget
unchanged; on any other object it raises `AttributeError`. -/
def GtkObject.get_date : GtkObject → Except String ((Nat × Nat × Nat) × GtkObject)
  | GtkObject.calendarWidget w =>
      Except.ok ((w.year, w.month0, w.day), GtkObject.calendarWidget w)
  | GtkObject.dialog _ => Except.error "AttributeError: no attribute get_date"

/-- The injected Gtk.Builder dependency: it can load named objects from a
layout file and retrieve a loaded object by name; either capability can
fail (missing or malformed file, unknown name). -/
structure Builder where
  add_objects_from_file : String → List String → Except String Unit
  get_object : String → Except String GtkObject

/-- The `Calendar` instance state after construction: the stored builder,
dialog and calendar-widget references (`self.builder`, `self.dialog`,
`self.calendar`). -/
structure Calendar where
  builder : Builder
  dialog : GtkObject
  calendar : GtkObject

/-- The layout-resource path built in `Calendar.__init__`: the directory
of the module joined with `"/glade/pyqso.glade"`. -/
def gladeFile (moduleDir : String) : String := moduleDir ++ "/glade/pyqso.glade"

/-- `Calendar.__init__`: load the `"calendar_dialog"` objects from the
glade file, look up the dialog and the calendar widget, show the dialog.
Any failure of the builder propagates; there is no handler in the source. -/
def Calendar.init (moduleDir : String) (builder : Builder) : Except String Calendar := do
  builder.add_objects_from_file (gladeFile moduleDir) ["calendar_dialog"]
  let dialog ← builder.get_object "calendar_dialog"
  let calendar ← builder.get_object "calendar"
  let dialog := dialog.show_all
  pure { builder := builder, dialog := dialog, calendar := calendar }

/-- The `date` property: read `(year, month, day)` from the widget, pad
the 1-indexed month and the day to two digits when below 10, and
concatenate `str(year) + str(month) + str(day)`. Every dynamically typed
operation of the source body is modelled (`pyAdd`, `pyStrV`), so an error
value would appear if any of them could raise. -/
def Calendar.date (c : Calendar) : Except String (PyVal × Calendar) := do
  let ((year, month, day), cal) ← c.calendar.get_date
  let month ← if month + 1 < 10
    then pyAdd (PyVal.str "0") (pyStrV (PyVal.int (month + 1)))
    else pyAdd (PyVal.int month) (PyVal.int 1)
  let day ← if day < 10
    then pyAdd (PyVal.str "0") (pyStrV (PyVal.int day))
    else pure (PyVal.int day)
  let d1 ← pyAdd (pyStrV (PyVal.int year)) (pyStrV month)
  let date ← pyAdd d1 (pyStrV day)
  pure (date, { c with calendar := cal })

/-- Two-digit zero padding as the spec words it: prepend `"0"` exactly
when the value is below 10. -/
def pad2 (n : Nat) : String := if n < 10 then "0" ++ pyStr n else pyStr n

/-- The date string the spec describes: unpadded year, then the padded
1-indexed month, then the padded day. -/
def dateStr (year month0 day : Nat) : String :=
  pyStr year ++ pad2 (month0 + 1) ++ pad2 day

/-- A concrete constructed `Calendar` whose widget holds the given
selection, for concrete evaluations. -/
def mkCalendar (y m d : Nat) : Calendar :=
  { builder :=
      { add_objects_from_file := fun _ _ => Except.ok ()
        get_object := fun _ => Except.error "unused" }
    dialog := GtkObject.dialog true
    calendar := GtkObject.calendarWidget { year := y, month0 := m, day := d } }

theorem str_data_append (s t : String) : (s ++ t).data = s.data ++ t.data := rfl

theorem str_length_append (s t : String) : (s ++ t).length = s.length + t.length := by
  cases s with
  | mk a =>
    cases t with
    | mk b =>
      simp only [String.length, HAppend.hAppend, String.append]
      exact List.length_append a b

/-- Unfolding lemma: on a state whose widget holds selection `w`, the
`date` accessor succeeds with the formatted string and the state itself. -/
theorem date_ok (c : Calendar) (w : GtkCalendar)
    (h : c.calendar = GtkObject.calendarWidget w) :
    Calendar.date c = Except.ok (PyVal.str (dateStr w.year w.month0 w.day), c) := by
  obtain ⟨b, dlg, cal⟩ := c
  have h2 : cal = GtkObject.calendarWidget w := h
  subst h2
  by_cases hm : w.month0 + 1 < 10 <;> by_cases hd : w.day < 10 <;>
    simp [Calendar.date, GtkObject.get_date, pyAdd, pyStrV, dateStr, pad2, hm, hd,
      bind, Except.bind, pure, Except.pure]

theorem digitsRev_zero (fuel : Nat) : digitsRev fuel 0 = [] := by
  cases fuel <;> simp [digitsRev]

theorem digitsRev_length (n : Nat) :
    ∀ fuel, 0 < n → n ≤ fuel → (digitsRev fuel n).length = Nat.log 10 n + 1 := by
  induction n using Nat.strong_induction_on with
  | _ n ih =>
    intro fuel hn hfuel
    cases fuel with
    | zero => omega
    | succ f =>
      rw [digitsRev, if_neg (Nat.pos_iff_ne_zero.mp hn)]
      by_cases h10 : n < 10
      · have hq : n / 10 = 0 := Nat.div_eq_of_lt h10
        rw [hq, digitsRev_zero]
        have hl : Nat.log 10 n = 0 := by
          rw [Nat.log_eq_zero_iff]
          exact Or.inl h10
        simp [hl]
      · have hpos : 0 < n / 10 := Nat.div_pos (le_of_not_lt h10) (by norm_num)
        have hlt : n / 10 < n := Nat.div_lt_self hn (by norm_num)
        have hle : n / 10 ≤ f := by omega
        rw [List.length_cons, ih (n / 10) hlt f hpos hle]
        have hlog : Nat.log 10 (n / 10) = Nat.log 10 n - 1 := Nat.log_div_base 10 n
        have hlp : 0 < Nat.log 10 n := Nat.log_pos (by norm_num) (le_of_not_lt h10)
        omega

theorem pyStr_length (n : Nat) (hn : 0 < n) :
    (pyStr n).length = Nat.log 10 n + 1 := by
  rw [pyStr, if_neg (Nat.pos_iff_ne_zero.mp hn), List.length_asString,
    List.length_map, List.length_reverse]
  exact digitsRev_length n n hn le_rfl

theorem pyStr_length_four (n : Nat) (h1 : 1000 ≤ n) (h2 : n ≤ 9999) :
    (pyStr n).length = 4 := by
  rw [pyStr_length n (by omega)]
  have hl : Nat.log 10 n = 3 :=
    Nat.log_eq_of_pow_le_of_lt_pow (by norm_num; omega) (by norm_num; omega)
  omega

theorem pad2_length (n : Nat) (h1 : 1 ≤ n) (h2 : n ≤ 99) : (pad2 n).length = 2 := by
  rw [pad2]
  by_cases h : n < 10
  · rw [if_pos h, str_length_append, pyStr_length n h1]
    have hl : Nat.log 10 n = 0 := by
      rw [Nat.log_eq_zero_iff]
      exact Or.inl h
    simp [hl, String.length]
  · rw [if_neg h, pyStr_length n h1]
    have hl : Nat.log 10 n = 1 :=
      Nat.log_eq_of_pow_le_of_lt_pow (by norm_num; omega) (by norm_num; omega)
    omega

/-- If the stored widget reference is the dialog rather than the calendar
widget, `date` raises `AttributeError`; used to rule this case out when a
call is known to have succeeded. -/
theorem date_dialog_err (c : Calendar) (v : Bool)
    (h : c.calendar = GtkObject.dialog v) :
    Calendar.date c = Except.error "AttributeError: no attribute get_date" := by
  simp [Calendar.date, h, GtkObject.get_date, bind, Except.bind]

/-- Any successful call of `date` returns the caller's state unchanged,
and its string is the formatted current selection. -/
theorem date_state_eq (c : Calendar) (v : PyVal) (c2 : Calendar)
    (h : Calendar.date c = Except.ok (v, c2)) : c2 = c := by
  cases hcal : c.calendar with
  | dialog b => rw [date_dialog_err c b hcal] at h; exact absurd h (by simp)
  | calendarWidget w =>
    rw [date_ok c w hcal] at h
    exact (Prod.mk.injEq _ _ _ _ ▸ Except.ok.injEq _ _ ▸ h).2.symm

theorem str_toList_length (s : String) : s.toList.length = s.length := rfl

theorem dateStr_toList (y m d : Nat) :
    (dateStr y m d).toList
      = (pyStr y).toList ++ ((pad2 (m + 1)).toList ++ (pad2 d).toList) := by
  show ((pyStr y ++ pad2 (m + 1)) ++ pad2 d).data = _
  rw [str_data_append, str_data_append, List.append_assoc]
  rfl

/-- C1: for a widget selection `(year, month0, day)` with `month0 ≤ 11`
and `day ∈ [1, 31]`, the date accessor returns the concatenation of the
unpadded decimal year, the 1-indexed month zero-padded to two digits when
below 10, and the day zero-padded to two digits when below 10. -/
theorem date_yyyymmdd_format (c : Calendar) (w : GtkCalendar)
    (hcal : c.calendar = GtkObject.calendarWidget w)
    (_hm : w.month0 ≤ 11) (_hd1 : 1 ≤ w.day) (_hd2 : w.day ≤ 31) :
    Calendar.date c
      = Except.ok (PyVal.str (pyStr w.year
          ++ (if w.month0 + 1 < 10 then "0" ++ pyStr (w.month0 + 1)
              else pyStr (w.month0 + 1))
          ++ (if w.day < 10 then "0" ++ pyStr w.day else pyStr w.day)), c) := by
  simpa [dateStr, pad2] using date_ok c w hcal

theorem date_yyyymmdd_format_witness :
    (mkCalendar 1999 0 1).calendar
        = GtkObject.calendarWidget { year := 1999, month0 := 0, day := 1 } ∧
    Calendar.date (mkCalendar 1999 0 1)
      = Except.ok (PyVal.str (pyStr 1999
          ++ (if 0 + 1 < 10 then "0" ++ pyStr (0 + 1) else pyStr (0 + 1))
          ++ (if 1 < 10 then "0" ++ pyStr 1 else pyStr 1)), mkCalendar 1999 0 1) :=
  ⟨rfl, date_yyyymmdd_format (mkCalendar 1999 0 1) ⟨1999, 0, 1⟩ rfl
    (by decide) (by decide) (by decide)⟩

/-- C2: for a 4-digit year and a valid widget selection, the returned
date string has length exactly 8. -/
theorem date_length_eight (c : Calendar) (w : GtkCalendar)
    (hcal : c.calendar = GtkObject.calendarWidget w)
    (hy1 : 1000 ≤ w.year) (hy2 : w.year ≤ 9999)
    (hm : w.month0 ≤ 11) (hd1 : 1 ≤ w.day) (hd2 : w.day ≤ 31) :
    ∃ s, Calendar.date c = Except.ok (PyVal.str s, c) ∧ s.length = 8 := by
  have hlen : (dateStr w.year w.month0 w.day).length = 8 := by
    rw [dateStr, str_length_append, str_length_append, pyStr_length_four _ hy1 hy2,
      pad2_length (w.month0 + 1) (by omega) (by omega), pad2_length w.day hd1 (by omega)]
  exact ⟨_, date_ok c w hcal, hlen⟩

theorem date_length_eight_witness :
    (1000 ≤ 2017 ∧ 2017 ≤ 9999) ∧
    (∃ s, Calendar.date (mkCalendar 2017 2 5)
        = Except.ok (PyVal.str s, mkCalendar 2017 2 5) ∧ s.length = 8) :=
  ⟨by decide, date_length_eight (mkCalendar 2017 2 5) ⟨2017, 2, 5⟩ rfl
    (by decide) (by decide) (by decide) (by decide) (by decide)⟩

/-- C3 counterexample: at the selection `(year = 99, month0 = 2, day = 5)`
the accessor returns `"990305"`, whose 5th and 6th characters are `"05"`,
not `"0" ++ str(month0 + 1) = "03"`: the claim fails when the year is not
4 digits long. -/
theorem date_month_chars_cex :
    Calendar.date (mkCalendar 99 2 5)
        = Except.ok (PyVal.str "990305", mkCalendar 99 2 5) ∧
    ¬ ((("990305" : String).toList.drop 4).take 2
        = (if 2 + 1 < 10 then "0" ++ pyStr (2 + 1) else pyStr (2 + 1)).toList) :=
  ⟨rfl, by decide⟩

/-- C3 (amended with a 4-digit year): when `1000 ≤ year ≤ 9999` and
`month0 ≤ 11`, the 5th and 6th characters of the returned string are
`"0" ++ str(month0 + 1)` when `month0 + 1 < 10` and `str(month0 + 1)`
otherwise. -/
theorem date_month_chars (c : Calendar) (w : GtkCalendar)
    (hcal : c.calendar = GtkObject.calendarWidget w)
    (hy1 : 1000 ≤ w.year) (hy2 : w.year ≤ 9999) (hm : w.month0 ≤ 11) :
    ∃ s, Calendar.date c = Except.ok (PyVal.str s, c) ∧
      (s.toList.drop 4).take 2
        = (if w.month0 + 1 < 10 then "0" ++ pyStr (w.month0 + 1)
           else pyStr (w.month0 + 1)).toList := by
  refine ⟨_, date_ok c w hcal, ?_⟩
  rw [dateStr_toList,
    List.drop_left' (by rw [str_toList_length]; exact pyStr_length_four _ hy1 hy2),
    List.take_left' (by rw [str_toList_length]; exact pad2_length _ (by omega) (by omega))]
  rfl

theorem date_month_chars_witness :
    (1000 ≤ 2005 ∧ (9 : Nat) ≤ 11) ∧
    (∃ s, Calendar.date (mkCalendar 2005 9 9)
        = Except.ok (PyVal.str s, mkCalendar 2005 9 9) ∧
      (s.toList.drop 4).take 2
        = (if 9 + 1 < 10 then "0" ++ pyStr (9 + 1) else pyStr (9 + 1)).toList) :=
  ⟨by decide, date_month_chars (mkCalendar 2005 9 9) ⟨2005, 9, 9⟩ rfl
    (by decide) (by decide) (by decide)⟩

/-- C4 counterexample: at the selection `(year = 12345, month0 = 2,
day = 5)` the accessor returns `"123450305"`, whose 7th and 8th
characters are `"30"`, not `"0" ++ str(day) = "05"`: the claim fails when
the year is not 4 digits long. -/
theorem date_day_chars_cex :
    Calendar.date (mkCalendar 12345 2 5)
        = Except.ok (PyVal.str "123450305", mkCalendar 12345 2 5) ∧
    ¬ ((("123450305" : String).toList.drop 6).take 2
        = (if 5 < 10 then "0" ++ pyStr 5 else pyStr 5).toList) :=
  ⟨rfl, by decide⟩

/-- C4 (amended with a 4-digit year and a valid month): when
`1000 ≤ year ≤ 9999`, `month0 ≤ 11` and `day ∈ [1, 31]`, the 7th and 8th
characters of the returned string are `"0" ++ str(day)` when `day < 10`
and `str(day)` otherwise. -/
theorem date_day_chars (c : Calendar) (w : GtkCalendar)
    (hcal : c.calendar = GtkObject.calendarWidget w)
    (hy1 : 1000 ≤ w.year) (hy2 : w.year ≤ 9999)
    (hm : w.month0 ≤ 11) (hd1 : 1 ≤ w.day) (hd2 : w.day ≤ 31) :
    ∃ s, Calendar.date c = Except.ok (PyVal.str s, c) ∧
      (s.toList.drop 6).take 2
        = (if w.day < 10 then "0" ++ pyStr w.day else pyStr w.day).toList := by
  refine ⟨_, date_ok c w hcal, ?_⟩
  have hsplit : (dateStr w.year w.month0 w.day).toList
      = ((pyStr w.year).toList ++ (pad2 (w.month0 + 1)).toList)
          ++ (pad2 w.day).toList := by
    rw [dateStr_toList, List.append_assoc]
  have hlen6 : ((pyStr w.year).toList ++ (pad2 (w.month0 + 1)).toList).length = 6 := by
    rw [List.length_append, str_toList_length, str_toList_length,
      pyStr_length_four _ hy1 hy2, pad2_length _ (by omega) (by omega)]
  have hlen2 : ((pad2 w.day).toList).length = 2 := by
    rw [str_toList_length]; exact pad2_length _ hd1 (by omega)
  rw [hsplit, List.drop_left' hlen6, List.take_of_length_le (by omega)]
  rfl

theorem date_day_chars_witness :
    ((1 : Nat) ≤ 31 ∧ (31 : Nat) ≤ 31) ∧
    (∃ s, Calendar.date (mkCalendar 2020 11 31)
        = Except.ok (PyVal.str s, mkCalendar 2020 11 31) ∧
      (s.toList.drop 6).take 2
        = (if 31 < 10 then "0" ++ pyStr 31 else pyStr 31).toList) :=
  ⟨by decide, date_day_chars (mkCalendar 2020 11 31) ⟨2020, 11, 31⟩ rfl
    (by decide) (by decide) (by decide) (by decide) (by decide)⟩

/-- C5: the four concrete selections of the spec produce exactly the four
documented strings. -/
theorem date_concrete_cases :
    Calendar.date (mkCalendar 2017 2 5)
        = Except.ok (PyVal.str "20170305", mkCalendar 2017 2 5) ∧
    Calendar.date (mkCalendar 2020 11 31)
        = Except.ok (PyVal.str "20201231", mkCalendar 2020 11 31) ∧
    Calendar.date (mkCalendar 1999 0 1)
        = Except.ok (PyVal.str "19990101", mkCalendar 1999 0 1) ∧
    Calendar.date (mkCalendar 2005 9 9)
        = Except.ok (PyVal.str "20051009", mkCalendar 2005 9 9) :=
  ⟨rfl, rfl, rfl, rfl⟩

/-- C6: the accessor is deterministic in the selection: a second call on
the state returned by a successful call produces the identical result,
hence the identical string. -/
theorem date_repeat_eq (c : Calendar) (v : PyVal) (c2 : Calendar)
    (h : Calendar.date c = Except.ok (v, c2)) :
    Calendar.date c2 = Calendar.date c := by
  rw [date_state_eq c v c2 h]

theorem date_repeat_eq_witness :
    Calendar.date (mkCalendar 2020 11 31)
        = Except.ok (PyVal.str "20201231", mkCalendar 2020 11 31) ∧
    Calendar.date (mkCalendar 2020 11 31) = Calendar.date (mkCalendar 2020 11 31) :=
  ⟨rfl, date_repeat_eq (mkCalendar 2020 11 31) (PyVal.str "20201231")
    (mkCalendar 2020 11 31) rfl⟩

/-- C7: the accessor is a pure read: a successful call returns a state
whose builder, dialog and calendar-widget fields all equal the caller's,
so no component state (and no copy of the selection) is retained or
changed. -/
theorem date_pure_read (c : Calendar) (v : PyVal) (c2 : Calendar)
    (h : Calendar.date c = Except.ok (v, c2)) :
    c2.builder = c.builder ∧ c2.dialog = c.dialog ∧ c2.calendar = c.calendar := by
  have he := date_state_eq c v c2 h
  subst he
  exact ⟨rfl, rfl, rfl⟩

theorem date_pure_read_witness :
    Calendar.date (mkCalendar 1999 0 1)
        = Except.ok (PyVal.str "19990101", mkCalendar 1999 0 1) ∧
    ((mkCalendar 1999 0 1).builder = (mkCalendar 1999 0 1).builder ∧
     (mkCalendar 1999 0 1).dialog = (mkCalendar 1999 0 1).dialog ∧
     (mkCalendar 1999 0 1).calendar = (mkCalendar 1999 0 1).calendar) :=
  ⟨rfl, date_pure_read (mkCalendar 1999 0 1) (PyVal.str "19990101")
    (mkCalendar 1999 0 1) rfl⟩

/-- C8: on a constructed instance whose widget holds a valid date, the
accessor has no error path: it returns `Except.ok` carrying a string
value, never `Except.error`, even though every dynamically typed
operation of the body is modelled as fallible. -/
theorem date_no_error (c : Calendar) (w : GtkCalendar)
    (hcal : c.calendar = GtkObject.calendarWidget w)
    (_hm : w.month0 ≤ 11) (_hd1 : 1 ≤ w.day) (_hd2 : w.day ≤ 31) :
    ∃ s c2, Calendar.date c = Except.ok (PyVal.str s, c2) :=
  ⟨_, _, date_ok c w hcal⟩

theorem date_no_error_witness :
    ((2 : Nat) ≤ 11 ∧ (1 : Nat) ≤ 5 ∧ (5 : Nat) ≤ 31) ∧
    (∃ s c2, Calendar.date (mkCalendar 2017 2 5) = Except.ok (PyVal.str s, c2)) :=
  ⟨by decide, date_no_error (mkCalendar 2017 2 5) ⟨2017, 2, 5⟩ rfl
    (by decide) (by decide) (by decide)⟩

/-- C9: a failure of the builder's resource load, or of either
named-object lookup, propagates out of the constructor unchanged: `init`
returns exactly that error, with no retry, fallback or recovery. -/
theorem init_error_propagates (moduleDir : String) (b : Builder) (e : String)
    (h : b.add_objects_from_file (gladeFile moduleDir) ["calendar_dialog"]
          = Except.error e
      ∨ (b.add_objects_from_file (gladeFile moduleDir) ["calendar_dialog"]
            = Except.ok ()
          ∧ b.get_object "calendar_dialog" = Except.error e)
      ∨ (b.add_objects_from_file (gladeFile moduleDir) ["calendar_dialog"]
            = Except.ok ()
          ∧ (∃ o, b.get_object "calendar_dialog" = Except.ok o)
          ∧ b.get_object "calendar" = Except.error e)) :
    Calendar.init moduleDir b = Except.error e := by
  rcases h with h1 | ⟨h1, h2⟩ | ⟨h1, ⟨o, h2⟩, h3⟩
  · simp [Calendar.init, h1, bind, Except.bind]
  · simp [Calendar.init, h1, h2, bind, Except.bind]
  · simp [Calendar.init, h1, h2, h3, bind, Except.bind]

/-- A builder whose resource load fails, to exhibit the propagation. -/
def failingBuilder : Builder :=
  { add_objects_from_file := fun _ _ => Except.error "GError: file not found"
    get_object := fun _ => Except.error "object not found" }

theorem init_error_propagates_witness :
    failingBuilder.add_objects_from_file (gladeFile "/pyqso") ["calendar_dialog"]
        = Except.error "GError: file not found" ∧
    Calendar.init "/pyqso" failingBuilder = Except.error "GError: file not found" :=
  ⟨rfl, init_error_propagates "/pyqso" failingBuilder "GError: file not found"
    (Or.inl rfl)⟩

/-- C10: for a valid month and day but a year of arbitrary magnitude, the
returned string's length is the decimal length of the year plus 4; in
particular it differs from 8 whenever the year is not exactly 4 digits. -/
theorem date_length_year_digits (c : Calendar) (w : GtkCalendar)
    (hcal : c.calendar = GtkObject.calendarWidget w)
    (hm : w.month0 ≤ 11) (hd1 : 1 ≤ w.day) (hd2 : w.day ≤ 31) :
    ∃ s, Calendar.date c = Except.ok (PyVal.str s, c)
      ∧ s.length = (pyStr w.year).length + 4
      ∧ ((pyStr w.year).length ≠ 4 → s.length ≠ 8) := by
  have hlen : (dateStr w.year w.month0 w.day).length = (pyStr w.year).length + 4 := by
    rw [dateStr, str_length_append, str_length_append,
      pad2_length (w.month0 + 1) (by omega) (by omega), pad2_length w.day hd1 (by omega)]
  exact ⟨_, date_ok c w hcal, hlen, fun hne h8 => hne (by omega)⟩

theorem date_length_year_digits_witness :
    ((2 : Nat) ≤ 11 ∧ (1 : Nat) ≤ 5 ∧ (5 : Nat) ≤ 31) ∧
    (∃ s, Calendar.date (mkCalendar 99 2 5)
        = Except.ok (PyVal.str s, mkCalendar 99 2 5)
      ∧ s.length = (pyStr 99).length + 4
      ∧ ((pyStr 99).length ≠ 4 → s.length ≠ 8)) :=
  ⟨by decide, date_length_year_digits (mkCalendar 99 2 5) ⟨99, 2, 5⟩ rfl
    (by decide) (by decide) (by decide)⟩

end PyQSO
